import Mathlib

/-!
Shallow embedding of `vita3k/kernel/src/thread/thread.cpp` (guest-thread
lifecycle of the Vita3K emulator kernel): thread creation, launch, the
run/step/wait/exit run loop, waiter notification, and stack relocation.

Machine integers of the source (`SceUID`, `Address`, `int`) are modelled as
`Nat` bit patterns (with explicit `% 2 ^ 32` where the source arithmetic can
wrap) or as `Int` for signed result codes.  Guest memory is a byte function
`Nat → Nat` together with a bump allocator, which captures exactly what the
source uses of the external allocator interface (`alloc`, `memset`, `memcpy`).
External collaborators (the CPU backend, the host thread API) are modelled at
their interface, as the spec describes them.
-/

set_option linter.unusedVariables false

/-- Run-state of a guest thread (`ThreadToDo` in `thread_state.h`):
`run`, `step`, `wait`, `exit`. -/
inductive ThreadToDo
  | exit
  | run
  | step
  | wait
deriving DecidableEq, Repr

/-- Modelled from the spec: the CPU Execution Backend register state visible to
this module — first two argument registers, stack pointer, program counter and
the thread-pointer register (`tpidruro`). -/
structure CPUState where
  r0 : Nat
  r1 : Nat
  sp : Nat
  pc : Nat
  tpidruro : Nat
deriving DecidableEq, Repr

/-- Modelled from the spec: backend `create(entry_address, stack_top, ...)`
(`init_cpu` in the source) seeds the program counter with the entry point and
the stack pointer with the stack top; a fresh backend starts with zeroed
registers, in particular a zero thread-pointer register. -/
def init_cpu (entry_point stack_top : Nat) : CPUState :=
  { r0 := 0, r1 := 0, sp := stack_top, pc := entry_point, tpidruro := 0 }

/-- Guest thread record (`ThreadState` in `thread_state.h`), with the fields
this module reads or writes.  `stack` is the base guest address of the stack
allocation; `waiting_threads` holds the identities of the waiting parties
(`std::vector<ThreadStatePtr>` in the source, modelled by waiter ids).
The initial run-state `run` is modelled from the spec lifecycle
(created → launched → executing). -/
structure ThreadState where
  name : String
  entry_point : Nat
  priority : Nat
  stack_size : Nat
  stack : Nat
  cpu : CPUState
  cpu_context : CPUState
  to_do : ThreadToDo
  waiting_threads : List Nat
deriving DecidableEq, Repr

/-- Guest memory: a bump allocator cursor and the byte contents. -/
structure MemState where
  next : Nat
  bytes : Nat → Nat

/-- Modelled from the spec: `allocate(size, label) -> address` of the guest
memory allocator, returning a fresh address range. -/
def alloc (m : MemState) (size : Nat) : Nat × MemState :=
  (m.next, { m with next := m.next + size })

/-- Byte-wise `memset(dst, value, size)` on guest memory. -/
def memset (m : MemState) (dst value size : Nat) : MemState :=
  { m with bytes := fun a => if dst ≤ a ∧ a < dst + size then value else m.bytes a }

/-- Byte-wise `memcpy(dst, src, size)` on guest memory (non-overlapping
ranges, as required by the C `memcpy` the source calls). -/
def memcpy (m : MemState) (dst src size : Nat) : MemState :=
  { m with bytes := fun a => if dst ≤ a ∧ a < dst + size then m.bytes (src + (a - dst)) else m.bytes a }

/-- The kernel state slice this module touches: the UID source, the full
thread table `threads`, the pending set `waiting_threads` (id ↦ descriptive
name, i.e. `WaitingThreadState`), the running set, and the one-shot
debugger-pause flag. -/
structure KernelState where
  next_uid : Nat
  threads : List (Nat × ThreadState)
  waiting_threads : List (Nat × String)
  running_threads : List Nat
  wait_for_debugger : Bool
deriving DecidableEq

/-- Modelled from the spec: kernel-wide unique-ID allocation
(`kernel.get_next_uid()`). -/
def get_next_uid (k : KernelState) : Nat × KernelState :=
  (k.next_uid, { k with next_uid := k.next_uid + 1 })

/-- Modelled from the spec: the "default" priority constant of the guest
kernel headers (outside this file); its high nibble marks the reserved
default-priority range tested at thread.cpp:91. -/
def SCE_KERNEL_DEFAULT_PRIORITY : Nat := 0x10000100

/-- Modelled from the spec: the internal "default-user" priority baseline of
the guest kernel headers (outside this file). -/
def SCE_KERNEL_DEFAULT_PRIORITY_USER_INTERNAL : Nat := 0xA0

/-- One past the largest 32-bit pattern; `int` / `Address` arithmetic of the
source wraps modulo this. -/
def U32 : Nat := 2 ^ 32

/-- Modelled from the spec: success status (`SCE_KERNEL_OK`). -/
def SCE_KERNEL_OK : Int := 0

/-- Modelled from the spec: the "unknown thread" error status
(`SCE_KERNEL_ERROR_UNKNOWN_THREAD_ID`, numeric value from headers outside
this file; only its identity matters here). -/
def SCE_KERNEL_ERROR_UNKNOWN_THREAD_ID : Int := 0x8002012E

/-- Modelled from the spec: the generic host-thread spawn failure status
(`SCE_KERNEL_ERROR_THREAD_ERROR`). -/
def SCE_KERNEL_ERROR_THREAD_ERROR : Int := 0x8002012C

/-- Modelled from the spec: the generic creation failure status
(`SCE_KERNEL_ERROR_ERROR`). -/
def SCE_KERNEL_ERROR_ERROR : Int := 0x80020001

/-- Optional creation parameter (`SceKernelThreadOptParam`): the two fields
`create_thread` writes into the first two argument registers. -/
structure SceKernelThreadOptParam where
  attr : Nat
  size : Nat
deriving DecidableEq, Repr

/-- The requested priority falls in the reserved high range associated with
the default priority: the test of thread.cpp:91,
`init_priority & (SCE_KERNEL_DEFAULT_PRIORITY & 0xF0000000)`. -/
def inReservedDefaultHighRange (init_priority : Nat) : Prop :=
  Nat.land init_priority (Nat.land SCE_KERNEL_DEFAULT_PRIORITY 0xF0000000) ≠ 0

instance : DecidablePred inReservedDefaultHighRange := fun p =>
  inferInstanceAs (Decidable (Nat.land p (Nat.land SCE_KERNEL_DEFAULT_PRIORITY 0xF0000000) ≠ 0))

/-- Observable side-effect order of `create_thread` (thread.cpp:96-131):
stack allocation and sentinel fill, backend creation, optional option-register
writes, context snapshot, TLS allocation, thread-pointer write, table
registration. -/
inductive CreateEvent
  | allocStack
  | fillStack
  | initCpuBackend
  | writeOptionRegs
  | saveContext
  | allocTls
  | writeTpidruro
  | registerTables
deriving DecidableEq, Repr

/-- The order in which `create_thread` performs its side effects, read off
thread.cpp:96-131 (`has_option` selects whether the option-register writes of
thread.cpp:113-116 happen). -/
def create_thread_events (has_option : Bool) : List CreateEvent :=
  [CreateEvent.allocStack, CreateEvent.fillStack, CreateEvent.initCpuBackend] ++
    (if has_option then [CreateEvent.writeOptionRegs] else []) ++
    [CreateEvent.saveContext, CreateEvent.allocTls, CreateEvent.writeTpidruro,
      CreateEvent.registerTables]

/-- Embedding of `create_thread` (thread.cpp:69-133).  `cpu_ok` models whether
backend initialization (`init_cpu`, thread.cpp:102) succeeds; on failure the
source returns `SCE_KERNEL_ERROR_ERROR` with no table registration, modelled
as `none`.  The diagnostic toggles (thread.cpp:106-111) touch only backend
logging and are omitted.  On success returns the new thread id, the stored
record, and the updated kernel and memory states. -/
def create_thread (entry_point : Nat) (kernel : KernelState) (mem : MemState)
    (name : String) (init_priority : Nat) (stack_size : Nat) (cpu_ok : Bool)
    (option : Option SceKernelThreadOptParam) :
    Option (Nat × ThreadState × KernelState × MemState) :=
  let u := get_next_uid kernel
  let thid := u.1
  let kernel1 := u.2
  -- thread.cpp:91-95
  let priority :=
    if Nat.land init_priority (Nat.land SCE_KERNEL_DEFAULT_PRIORITY 0xF0000000) ≠ 0 then
      (init_priority + U32 - SCE_KERNEL_DEFAULT_PRIORITY
        + SCE_KERNEL_DEFAULT_PRIORITY_USER_INTERNAL) % U32
    else
      init_priority
  -- thread.cpp:96-100
  let a1 := alloc mem stack_size
  let stack_address := a1.1
  let mem1 := a1.2
  let stack_top := stack_address + stack_size
  let mem2 := memset mem1 stack_address 0xcc stack_size
  if cpu_ok then
    -- thread.cpp:102
    let cpu0 := init_cpu entry_point stack_top
    -- thread.cpp:113-116
    let cpu1 :=
      match option with
      | some o => { cpu0 with r0 := o.attr, r1 := o.size }
      | none => cpu0
    -- thread.cpp:118 (save_context)
    let saved_context := cpu1
    -- thread.cpp:120-122 (TLS allocation, 0x800 bytes, address of its end)
    let a2 := alloc mem2 0x800
    let mem3 := a2.2
    let tls_address := a2.1 + 0x800
    -- thread.cpp:124 (write_tpidruro)
    let cpu2 := { cpu1 with tpidruro := tls_address }
    let thread : ThreadState :=
      { name := name, entry_point := entry_point, priority := priority,
        stack_size := stack_size, stack := stack_address, cpu := cpu2,
        cpu_context := saved_context, to_do := ThreadToDo.run,
        waiting_threads := [] }
    -- thread.cpp:128-130: both registrations under one hold of the kernel lock
    let kernel2 :=
      { kernel1 with
        threads := (thid, thread) :: kernel1.threads,
        waiting_threads := (thid, name) :: kernel1.waiting_threads }
    some (thid, thread, kernel2, mem3)
  else
    none

/-- One notification of a waiting party (thread.cpp:136-139): acquiring that
party's own lock, signalling its condition variable, releasing the lock. -/
inductive NotifyEvent
  | lock (id : Nat)
  | notify (id : Nat)
  | unlock (id : Nat)
deriving DecidableEq, Repr

/-- Event stream produced by the loop of thread.cpp:136-139: for each waiter
in order, acquire its lock, signal its condition variable once, release. -/
def notifyEvents : List Nat → List NotifyEvent
  | [] => []
  | w :: ws => NotifyEvent.lock w :: NotifyEvent.notify w :: NotifyEvent.unlock w :: notifyEvents ws

/-- Embedding of `raise_waiting_threads` (thread.cpp:135-141): signal every
waiter once under its own lock, then clear the waiter set.  Returns the
updated record and the notification event stream. -/
def raise_waiting_threads (t : ThreadState) : ThreadState × List NotifyEvent :=
  ({ t with waiting_threads := [] }, notifyEvents t.waiting_threads)

/-- Every `notify w` in the stream sits directly between `lock w` and
`unlock w`: the stream is a sequence of per-party lock/notify/unlock
triples. -/
inductive LockedNotifies : List NotifyEvent → Prop
  | nil : LockedNotifies []
  | cons (w : Nat) (rest : List NotifyEvent) : LockedNotifies rest →
      LockedNotifies (NotifyEvent.lock w :: NotifyEvent.notify w :: NotifyEvent.unlock w :: rest)

/-- Erase the pending-set entry of `key` (`kernel.waiting_threads.erase(waiting)`,
thread.cpp:177). -/
def eraseKey (key : Nat) (l : List (Nat × String)) : List (Nat × String) :=
  l.eraseP (fun p => p.1 == key)

/-- Embedding of `start_thread` (thread.cpp:143-181).  `spawn_ok` models
whether `SDL_CreateThread` succeeds.  Returns the status, the updated kernel
state, and whether a host thread was spawned; `none` models the assertion
failure of thread.cpp:152 (id in the pending set but not in the thread
table). -/
def start_thread (kernel : KernelState) (thid : Nat) (arglen : Nat) (argp : Nat)
    (spawn_ok : Bool) : Option (Int × KernelState × Bool) :=
  match List.lookup thid kernel.waiting_threads with
  | none => some (SCE_KERNEL_ERROR_UNKNOWN_THREAD_ID, kernel, false)
  | some _waiting =>
    match List.lookup thid kernel.threads with
    | none => none
    | some _thread =>
      if spawn_ok then
        some (SCE_KERNEL_OK,
          { kernel with
            waiting_threads := eraseKey thid kernel.waiting_threads,
            running_threads := thid :: kernel.running_threads },
          true)
      else
        some (SCE_KERNEL_ERROR_THREAD_ERROR, kernel, false)

/-- Replace the value stored under `key` in the thread table (the effect of
mutating a record found in the table through its shared handle). -/
def updateKey (key : Nat) (v : ThreadState) (l : List (Nat × ThreadState)) :
    List (Nat × ThreadState) :=
  l.map fun p => if p.1 = key then (key, v) else p

/-- Embedding of `copy_stack` (thread.cpp:183-205).  Looks up the destination
(`thid`) and source (`thread_id`) records; computes the source's used stack
region (top minus current stack pointer), copies it to the top-relative
position in the destination stack, writes the destination stack pointer, and
relocates `argp` when it points strictly inside the source stack.  Returns
the relocated pointer with the updated kernel and memory states; `none`
models `lock_and_find` failing to resolve either id. -/
def copy_stack (thid : Nat) (thread_id : Nat) (argp : Nat) (kernel : KernelState)
    (mem : MemState) : Option (Nat × KernelState × MemState) :=
  match List.lookup thid kernel.threads, List.lookup thread_id kernel.threads with
  | some new_thread, some old_thread =>
    let old_stack_address := old_thread.stack
    let new_stack_address := new_thread.stack
    let old_sp := old_thread.cpu.sp
    -- thread.cpp:193-194
    let old_stack_size := old_stack_address + old_thread.stack_size - old_sp
    let new_sp := new_stack_address + new_thread.stack_size - old_stack_size
    -- thread.cpp:196-197
    let mem2 := memcpy mem new_sp old_sp old_stack_size
    let new_thread2 := { new_thread with cpu := { new_thread.cpu with sp := new_sp } }
    let kernel2 := { kernel with threads := updateKey thid new_thread2 kernel.threads }
    -- thread.cpp:199-203
    let new_argp :=
      if old_stack_address < argp ∧ old_stack_address + old_thread.stack_size > argp then
        new_stack_address + new_thread.stack_size - (old_stack_address + old_thread.stack_size - argp)
      else
        argp
    some (new_argp, kernel2, mem2)
  | _, _ => none

/-- Result of one invocation of the run loop: the boolean it returns, the
final run-state of the record, and how many times each backend primitive
(run-until-stop, single-step) was invoked. -/
structure RunResult where
  success : Bool
  final : ThreadToDo
  runCalls : Nat
  stepCalls : Nat
deriving DecidableEq, Repr

/-- Embedding of `run_thread` (thread.cpp:207-246).  `results` is the stream
of backend result codes consumed by `run`/`step` invocations; `wakes` is the
stream of run-states the record holds after each condition-variable wake in
the `wait` branch (set by external operations before notifying).  `fuel`
bounds the loop; `none` means the loop did not return within `fuel`
iterations (in particular, blocking forever in `wait` with no wake).  The
dead diagnostic branch of thread.cpp:217-219 and the `USE_GDBSTUB`
conditional of thread.cpp:226-231 (not compiled) are omitted. -/
def run_thread (fuel : Nat) (to_do : ThreadToDo) (results : List Int)
    (wakes : List ThreadToDo) : Option RunResult :=
  match fuel with
  | 0 => none
  | fuel + 1 =>
    match to_do with
    -- thread.cpp:212-213
    | ThreadToDo.exit => some ⟨true, ThreadToDo.exit, 0, 0⟩
    -- thread.cpp:241-243
    | ThreadToDo.wait =>
      match wakes with
      | [] => none
      | w :: ws => run_thread fuel w results ws
    | ThreadToDo.run | ThreadToDo.step =>
      match results with
      | [] => none
      | res :: rest =>
        -- thread.cpp:220-225: step sets to_do to wait after one step
        let stepped := to_do = ThreadToDo.step
        let to_do1 := if stepped then ThreadToDo.wait else to_do
        let rc : Nat := if stepped then 0 else 1
        let sc : Nat := if stepped then 1 else 0
        -- thread.cpp:232-236
        if res < 0 then some ⟨false, ThreadToDo.exit, rc, sc⟩
        -- thread.cpp:237-239
        else if to_do1 = ThreadToDo.step then
          (run_thread fuel to_do1 rest wakes).map fun out =>
            ⟨out.success, out.final, rc + out.runCalls, sc + out.stepCalls⟩
        -- thread.cpp:240
        else some ⟨true, to_do1, rc, sc⟩

/-- Every write this module performs to a record's run-state, as a transition
from the run-state the source holds at that program point (sequential
semantics, one operation at a time):
thread_function pauses a freshly launched thread (thread.cpp:53-57, run-state
still the initial `run`); the run loop parks a stepping thread
(thread.cpp:220-222) and forces `exit` on a backend failure (thread.cpp:234,
reached with run-state `run` on the run path or `wait` on the step path); the
trampoline forces `exit` after the run loop returns (thread.cpp:62-63); the
running-set teardown routine forces `exit` unconditionally (thread.cpp:163);
`raise_waiting_threads` performs no run-state write (thread.cpp:135-141). -/
inductive ModuleStep : ThreadToDo → ThreadToDo → Prop
  | debugger_pause : ModuleStep ThreadToDo.run ThreadToDo.wait
  | step_to_wait : ModuleStep ThreadToDo.step ThreadToDo.wait
  | run_fail_exit : ModuleStep ThreadToDo.run ThreadToDo.exit
  | step_fail_exit : ModuleStep ThreadToDo.wait ThreadToDo.exit
  | trampoline_exit (s : ThreadToDo) : ModuleStep s ThreadToDo.exit
  | teardown_exit (s : ThreadToDo) : ModuleStep s ThreadToDo.exit

/-- Sample kernel state with empty tables. -/
def k0 : KernelState :=
  { next_uid := 1, threads := [], waiting_threads := [], running_threads := [],
    wait_for_debugger := false }

/-- Sample fresh guest memory. -/
def m0 : MemState := { next := 0x1000, bytes := fun _ => 0 }

/-- Sample source thread for stack relocation: stack `[1000, 1100)`, stack
pointer `1080`, so 20 bytes of the stack are in use. -/
def tOld : ThreadState :=
  { name := "source", entry_point := 0x4000, priority := 64, stack_size := 100,
    stack := 1000, cpu := { r0 := 0, r1 := 0, sp := 1080, pc := 0x4000, tpidruro := 0 },
    cpu_context := init_cpu 0x4000 1100, to_do := ThreadToDo.run, waiting_threads := [] }

/-- Sample destination thread for stack relocation: stack `[3000, 3200)`. -/
def tNew : ThreadState :=
  { name := "clone", entry_point := 0x4000, priority := 64, stack_size := 200,
    stack := 3000, cpu := { r0 := 0, r1 := 0, sp := 3200, pc := 0x4000, tpidruro := 0 },
    cpu_context := init_cpu 0x4000 3200, to_do := ThreadToDo.run, waiting_threads := [] }

/-- Sample kernel state holding the two stack-relocation threads. -/
def kCS : KernelState :=
  { next_uid := 3, threads := [(1, tNew), (2, tOld)], waiting_threads := [],
    running_threads := [], wait_for_debugger := false }

/-- Sample guest memory with distinguishable byte contents. -/
def mCS : MemState := { next := 0x10000, bytes := fun a => a % 251 }

/-- Postcondition of `copy_stack` asserted by the spec: with `K` the source's
used stack region (source top minus source stack pointer), the destination's
top-relative `K` bytes equal the source's top-relative `K` bytes, the
destination stack pointer is `dest_top - K`, an argument pointer at
`source_top - d` inside the source stack is relocated to `dest_top - d`, and
an argument pointer outside the source stack range is returned unchanged. -/
def CopyStackPost (thid thread_id argp : Nat) (k : KernelState) (m : MemState)
    (nt ot : ThreadState) : Prop :=
  match copy_stack thid thread_id argp k m with
  | some r =>
    (∀ i, i < ot.stack + ot.stack_size - ot.cpu.sp →
      r.2.2.bytes (nt.stack + nt.stack_size - (ot.stack + ot.stack_size - ot.cpu.sp) + i)
        = m.bytes (ot.stack + ot.stack_size - (ot.stack + ot.stack_size - ot.cpu.sp) + i)) ∧
    ((List.lookup thid r.2.1.threads).map fun t => t.cpu.sp)
        = some (nt.stack + nt.stack_size - (ot.stack + ot.stack_size - ot.cpu.sp)) ∧
    (∀ d, 0 < d → d < ot.stack_size → argp = ot.stack + ot.stack_size - d →
      r.1 = nt.stack + nt.stack_size - d) ∧
    ((argp < ot.stack ∨ ot.stack + ot.stack_size ≤ argp) → r.1 = argp)
  | none => False

/-- Boundary behaviour of the `copy_stack` argument-pointer relocation: the
pointer is relocated exactly when it lies strictly between the source stack's
base and top; a pointer equal to the base, or at or above the top, is returned
unchanged. -/
def CopyStackArgpPost (thid thread_id argp : Nat) (k : KernelState) (m : MemState)
    (nt ot : ThreadState) : Prop :=
  match copy_stack thid thread_id argp k m with
  | some r =>
    (argp = ot.stack → r.1 = argp) ∧
    (ot.stack + ot.stack_size ≤ argp → r.1 = argp) ∧
    (ot.stack < argp → argp < ot.stack + ot.stack_size →
      r.1 = nt.stack + nt.stack_size - (ot.stack + ot.stack_size - argp))
  | none => False

/-- Invariant of the kernel tables: every id in the pending set resolves in
the full thread table. -/
def WaitingSubset (k : KernelState) : Prop :=
  ∀ thid : Nat, (List.lookup thid k.waiting_threads).isSome = true →
    (List.lookup thid k.threads).isSome = true

/-- The pending-set/thread-table relationship maintained by this module:
`create_thread` preserves the invariant (it registers in both maps at once),
and `start_thread` preserves it and never hits its internal assertion
(thread.cpp:152). -/
def PendingRegisteredPost (k : KernelState) : Prop :=
  (∀ e m n p s o r, create_thread e k m n p s true o = some r →
    WaitingSubset r.2.2.1) ∧
  (∀ thid a b ok, start_thread k thid a b ok ≠ none ∧
    ∀ res, start_thread k thid a b ok = some res → WaitingSubset res.2.1)

/-! Helper lemmas. -/

theorem notifyEvents_count_notify (ws : List Nat) (w : Nat) :
    (notifyEvents ws).count (NotifyEvent.notify w) = ws.count w := by
  induction ws with
  | nil => rfl
  | cons x xs ih =>
    by_cases hxw : x = w
    · subst hxw; simp [notifyEvents, List.count_cons, ih]
    · simp [notifyEvents, List.count_cons, ih, hxw]

theorem notifyEvents_locked (ws : List Nat) : LockedNotifies (notifyEvents ws) := by
  induction ws with
  | nil => exact LockedNotifies.nil
  | cons x xs ih => exact LockedNotifies.cons x _ ih

theorem lookup_updateKey (key : Nat) (v : ThreadState) (l : List (Nat × ThreadState)) :
    List.lookup key (updateKey key v l) = (List.lookup key l).map fun _ => v := by
  induction l with
  | nil => rfl
  | cons hd tl ih =>
    obtain ⟨k1, v1⟩ := hd
    simp only [updateKey, List.map_cons] at ih ⊢
    by_cases h : k1 = key
    · subst h
      rw [show ((if (k1, v1).1 = k1 then (k1, v) else (k1, v1)) = (k1, v)) from if_pos rfl]
      simp only [List.lookup, beq_self_eq_true]
      rfl
    · have hb : (key == k1) = false := by
        simp only [beq_eq_false_iff_ne, ne_eq]
        exact fun hk => h hk.symm
      rw [show ((if (k1, v1).1 = key then (key, v) else (k1, v1)) = (k1, v1)) from if_neg h]
      simp only [List.lookup, hb]
      exact ih

theorem lookup_isSome_of_sublist {l1 l2 : List (Nat × String)} (h : l1.Sublist l2) :
    ∀ a : Nat, (List.lookup a l1).isSome = true → (List.lookup a l2).isSome = true := by
  induction h with
  | slnil => exact fun a ha => ha
  | cons b hsub ih =>
    intro a ha
    obtain ⟨k1, v1⟩ := b
    cases hb : (a == k1) with
    | false =>
      simp only [List.lookup, hb]
      exact ih a ha
    | true => simp only [List.lookup, hb, Option.isSome_some]
  | cons₂ b hsub ih =>
    intro a ha
    obtain ⟨k1, v1⟩ := b
    cases hb : (a == k1) with
    | false =>
      simp only [List.lookup, hb] at ha ⊢
      exact ih a ha
    | true => simp only [List.lookup, hb, Option.isSome_some]

theorem create_thread_kernel (e : Nat) (k : KernelState) (m : MemState) (n : String)
    (p s : Nat) (o : Option SceKernelThreadOptParam)
    (r : Nat × ThreadState × KernelState × MemState)
    (hr : create_thread e k m n p s true o = some r) :
    r.2.2.1.threads = (k.next_uid, r.2.1) :: k.threads ∧
    r.2.2.1.waiting_threads = (k.next_uid, n) :: k.waiting_threads := by
  cases o <;> simp [create_thread, get_next_uid, alloc] at hr <;> subst hr <;> exact ⟨rfl, rfl⟩

/-! Claim theorems. -/

/-- C1: the record stored by `create_thread` has priority equal to the input
minus the default priority plus the internal default-user priority (as a
32-bit value) exactly when the input lies in the reserved default-priority
high range — which is exactly the inputs with bit 28 set — and equal to the
input verbatim otherwise. -/
theorem create_thread_priority_normalized :
    ∀ (e : Nat) (k : KernelState) (m : MemState) (n : String) (p s : Nat)
      (o : Option SceKernelThreadOptParam),
      ((create_thread e k m n p s true o).map fun r => r.2.1.priority) =
        some (if inReservedDefaultHighRange p then
          (p + U32 - SCE_KERNEL_DEFAULT_PRIORITY
            + SCE_KERNEL_DEFAULT_PRIORITY_USER_INTERNAL) % U32
        else p) ∧
      (inReservedDefaultHighRange p ↔ Nat.testBit p 28) := by
  intro e k m n p s o
  constructor
  · by_cases h : inReservedDefaultHighRange p
    · simp only [inReservedDefaultHighRange] at h
      cases o <;> simp [create_thread, inReservedDefaultHighRange, h]
    · simp only [inReservedDefaultHighRange] at h
      cases o <;> simp [create_thread, inReservedDefaultHighRange, h]
  · have hmask : Nat.land SCE_KERNEL_DEFAULT_PRIORITY 0xF0000000 = 2 ^ 28 := by decide
    show Nat.land p (Nat.land SCE_KERNEL_DEFAULT_PRIORITY 0xF0000000) ≠ 0 ↔ _
    rw [hmask]
    have h2 : Nat.land p (2 ^ 28) = (p.testBit 28).toNat * 2 ^ 28 := Nat.and_two_pow p 28
    rw [h2]
    cases htb : p.testBit 28 <;> simp

/-- C2 counterexample: the claim that the context snapshot is captured only
after the TLS block is allocated and the thread pointer programmed fails on
the code: in the event order of `create_thread` the snapshot precedes the TLS
allocation, and on a concrete input the stored snapshot does not hold the
programmed thread-pointer value. -/
theorem create_thread_snapshot_claim_refuted :
    ((create_thread 0x4000 k0 m0 "main" 5 64 true none).map
        fun r => r.2.1.cpu_context.tpidruro == r.2.1.cpu.tpidruro) = some false ∧
    (create_thread_events true).indexOf CreateEvent.saveContext <
      (create_thread_events true).indexOf CreateEvent.allocTls := by
  constructor
  · rfl
  · decide

/-- C2 (amended): in `create_thread` the initial context snapshot is captured
after the optional option-register writes but before the 2048-byte TLS block
is allocated and the backend's thread-pointer register is programmed to its
end; the snapshot therefore holds the backend's initial (zero) thread-pointer
value, agreeing with the live backend state on every other register, while
only the live backend holds the TLS address. -/
theorem create_thread_snapshot_before_tls :
    (∀ (e : Nat) (k : KernelState) (m : MemState) (n : String) (p s : Nat)
      (o : Option SceKernelThreadOptParam),
      match create_thread e k m n p s true o with
      | some r =>
        r.2.1.cpu_context = { r.2.1.cpu with tpidruro := 0 } ∧
        r.2.1.cpu.tpidruro = m.next + s + 0x800
      | none => False) ∧
    (create_thread_events true).indexOf CreateEvent.saveContext <
      (create_thread_events true).indexOf CreateEvent.allocTls ∧
    (create_thread_events false).indexOf CreateEvent.saveContext <
      (create_thread_events false).indexOf CreateEvent.allocTls := by
  refine ⟨?_, by decide, by decide⟩
  intro e k m n p s o
  cases o <;> simp [create_thread, init_cpu, alloc, memset, get_next_uid]

/-- C3: the run-state never leaves `exit` under the operations of this
module: the run loop invoked on an exited record returns at once leaving the
state `exit`, and no chain of run-state writes performed by the module
(`ModuleStep`) leads from `exit` to any other state. -/
theorem run_state_exit_monotonic :
    (∀ fuel results wakes,
      run_thread (fuel + 1) ThreadToDo.exit results wakes =
        some ⟨true, ThreadToDo.exit, 0, 0⟩) ∧
    (∀ s, Relation.ReflTransGen ModuleStep ThreadToDo.exit s → s = ThreadToDo.exit) := by
  constructor
  · intro fuel results wakes
    rfl
  · intro s h
    induction h with
    | refl => rfl
    | tail hab hbc ih =>
      subst ih
      cases hbc <;> rfl

/-- C3 witness: a module write applied to an exited record (the teardown
routine forcing `exit`) keeps the state `exit`, and the run loop on an exited
record returns success immediately. -/
theorem run_state_exit_monotonic_witness :
    Relation.ReflTransGen ModuleStep ThreadToDo.exit ThreadToDo.exit ∧
    ThreadToDo.exit = ThreadToDo.exit ∧
    run_thread 1 ThreadToDo.exit [] [] = some ⟨true, ThreadToDo.exit, 0, 0⟩ := by
  have h : Relation.ReflTransGen ModuleStep ThreadToDo.exit ThreadToDo.exit :=
    Relation.ReflTransGen.single (ModuleStep.teardown_exit ThreadToDo.exit)
  exact ⟨h, run_state_exit_monotonic.2 ThreadToDo.exit h,
    run_state_exit_monotonic.1 0 [] []⟩

/-- C4: after `copy_stack`, with `K` the source's used stack region (source
top minus source stack pointer, assumed inside the source stack and no larger
than the destination stack), the destination's top-relative `K` bytes equal
the source's top-relative `K` bytes, the destination thread's stack pointer
is `dest_top - K`, an argument pointer at `source_top - d` inside the source
stack comes back as `dest_top - d`, and an argument pointer outside the
source stack range comes back unchanged. -/
theorem copy_stack_relocates_used_region :
    ∀ (thid thread_id argp : Nat) (k : KernelState) (m : MemState)
      (nt ot : ThreadState),
      List.lookup thid k.threads = some nt →
      List.lookup thread_id k.threads = some ot →
      ot.stack ≤ ot.cpu.sp →
      ot.cpu.sp ≤ ot.stack + ot.stack_size →
      ot.stack + ot.stack_size - ot.cpu.sp ≤ nt.stack_size →
      CopyStackPost thid thread_id argp k m nt ot := by
  intro thid thread_id argp k m nt ot h1 h2 h3 h4 h5
  unfold CopyStackPost copy_stack
  rw [h1, h2]
  dsimp only
  refine ⟨?_, ?_, ?_, ?_⟩
  · intro i hi
    dsimp only [memcpy]
    rw [if_pos ⟨by omega, by omega⟩]
    have heq : ot.cpu.sp + (nt.stack + nt.stack_size - (ot.stack + ot.stack_size - ot.cpu.sp) + i
        - (nt.stack + nt.stack_size - (ot.stack + ot.stack_size - ot.cpu.sp)))
        = ot.stack + ot.stack_size - (ot.stack + ot.stack_size - ot.cpu.sp) + i := by
      omega
    rw [heq]
  · rw [lookup_updateKey, h1]
    rfl
  · intro d hd0 hds harg
    subst harg
    rw [if_pos ⟨by omega, by omega⟩]
    omega
  · intro hout
    rw [if_neg]
    rintro ⟨hlt, hgt⟩
    rcases hout with h | h <;> omega

/-- C4 witness: concrete threads with a 20-byte used source stack and an
argument pointer 10 bytes below the source stack top. -/
theorem copy_stack_relocates_used_region_witness :
    CopyStackPost 1 2 1090 kCS mCS tNew tOld :=
  copy_stack_relocates_used_region 1 2 1090 kCS mCS tNew tOld rfl rfl
    (by decide) (by decide) (by decide)

/-- C9: the `copy_stack` argument pointer is relocated only when it lies
strictly between the source stack's base and top; a pointer equal to the
base, or at or above the top, is returned unchanged. -/
theorem copy_stack_argp_strict_boundary :
    ∀ (thid thread_id argp : Nat) (k : KernelState) (m : MemState)
      (nt ot : ThreadState),
      List.lookup thid k.threads = some nt →
      List.lookup thread_id k.threads = some ot →
      CopyStackArgpPost thid thread_id argp k m nt ot := by
  intro thid thread_id argp k m nt ot h1 h2
  unfold CopyStackArgpPost copy_stack
  rw [h1, h2]
  dsimp only
  refine ⟨?_, ?_, ?_⟩
  · intro hbase
    rw [if_neg]
    rintro ⟨hlt, hgt⟩
    omega
  · intro htop
    rw [if_neg]
    rintro ⟨hlt, hgt⟩
    omega
  · intro hlt hgt
    rw [if_pos ⟨hlt, hgt⟩]

/-- C9 witness: an argument pointer exactly at the source stack's base is
returned unchanged. -/
theorem copy_stack_argp_strict_boundary_witness :
    CopyStackArgpPost 1 2 1000 kCS mCS tNew tOld :=
  copy_stack_argp_strict_boundary 1 2 1000 kCS mCS tNew tOld rfl rfl

/-- C5: whenever the backend primitive invoked by the run loop returns a
negative result, the run-state is set to `exit` and the loop returns failure,
both when the state that triggered execution was `run` (one run-until-stop
invocation) and when it was `step` (one single-step invocation). -/
theorem run_thread_backend_failure :
    ∀ (fuel : Nat) (r : Int) (rest : List Int) (wakes : List ThreadToDo),
      r < 0 →
      run_thread (fuel + 1) ThreadToDo.run (r :: rest) wakes =
        some ⟨false, ThreadToDo.exit, 1, 0⟩ ∧
      run_thread (fuel + 1) ThreadToDo.step (r :: rest) wakes =
        some ⟨false, ThreadToDo.exit, 0, 1⟩ := by
  intro fuel r rest wakes h
  constructor <;> simp [run_thread, h]

/-- C5 witness: a backend failure code of `-1` from either the run or the
step primitive forces `exit` with failure reported. -/
theorem run_thread_backend_failure_witness :
    run_thread 1 ThreadToDo.run [-1] [] = some ⟨false, ThreadToDo.exit, 1, 0⟩ ∧
    run_thread 1 ThreadToDo.step [-1] [] = some ⟨false, ThreadToDo.exit, 0, 1⟩ :=
  run_thread_backend_failure 0 (-1) [] [] (by decide)

/-- C6 counterexample: the claim that after a nonnegative single step the run
loop continues into the blocking wait branch rather than returning fails on
the code: with no waker available the loop would block (`none` in this
embedding), yet it returns success with the state parked at `wait`. -/
theorem run_thread_step_claim_refuted :
    run_thread 5 ThreadToDo.step [0] [] = some ⟨true, ThreadToDo.wait, 0, 1⟩ ∧
    run_thread 5 ThreadToDo.step [0] [] ≠ none := by
  constructor
  · rfl
  · decide

/-- C6 (amended): if the run loop observes run-state `step` and the backend
step result is nonnegative, it invokes the single-instruction-step primitive
exactly once, sets the run-state to `wait`, and returns success to its caller
instead of continuing the loop into the blocking wait branch (the re-check at
thread.cpp:237 sees `wait`, not `step`, so the loop exits at
thread.cpp:240). -/
theorem run_thread_step_parks_and_returns :
    ∀ (fuel : Nat) (r : Int) (rest : List Int) (wakes : List ThreadToDo),
      0 ≤ r →
      run_thread (fuel + 1) ThreadToDo.step (r :: rest) wakes =
        some ⟨true, ThreadToDo.wait, 0, 1⟩ := by
  intro fuel r rest wakes h
  have h2 : ¬ r < 0 := not_lt.mpr h
  simp [run_thread, h2]

/-- C6 witness: a single step with backend result `0` parks the thread at
`wait` and returns success, having invoked the step primitive once. -/
theorem run_thread_step_parks_and_returns_witness :
    run_thread 1 ThreadToDo.step [0] [] = some ⟨true, ThreadToDo.wait, 0, 1⟩ :=
  run_thread_step_parks_and_returns 0 0 [] [] (by decide)

/-- C7: `raise_waiting_threads` leaves the record equal to itself with an
empty waiter set (no other field changes), signals each waiting party's
condition variable exactly as many times as it occurs in the waiter set (once
for each party of a set), every signal happens between acquiring and
releasing that party's own lock, and calling it again on the result is a
no-op producing no signals. -/
theorem raise_waiting_threads_notifies_once :
    ∀ t : ThreadState,
      (raise_waiting_threads t).1 = { t with waiting_threads := [] } ∧
      (∀ w, ((raise_waiting_threads t).2.count (NotifyEvent.notify w))
        = t.waiting_threads.count w) ∧
      LockedNotifies (raise_waiting_threads t).2 ∧
      raise_waiting_threads (raise_waiting_threads t).1 =
        ((raise_waiting_threads t).1, []) := by
  intro t
  exact ⟨rfl, fun w => notifyEvents_count_notify t.waiting_threads w,
    notifyEvents_locked t.waiting_threads, rfl⟩

/-- C8: `start_thread` called with a thread id absent from the pending set
returns the "unknown thread" status, leaves the kernel state (thread table,
pending set, running set) unchanged, and spawns no host thread. -/
theorem start_thread_unknown_id :
    ∀ (k : KernelState) (thid arglen argp : Nat) (spawn_ok : Bool),
      List.lookup thid k.waiting_threads = none →
      start_thread k thid arglen argp spawn_ok =
        some (SCE_KERNEL_ERROR_UNKNOWN_THREAD_ID, k, false) := by
  intro k thid arglen argp spawn_ok h
  unfold start_thread
  rw [h]

/-- C8 witness: an unknown id on the empty kernel state. -/
theorem start_thread_unknown_id_witness :
    start_thread k0 7 0 0 true = some (SCE_KERNEL_ERROR_UNKNOWN_THREAD_ID, k0, false) :=
  start_thread_unknown_id k0 7 0 0 true rfl

/-- C10: if every pending id resolves in the thread table, then the kernel
state produced by `create_thread` (which registers the new record in both
maps at once) still has that property, and `start_thread` (which removes an
id only from the pending set) preserves it and never fails its internal
assertion that the id resolves in the thread table. -/
theorem pending_ids_registered :
    ∀ k : KernelState, WaitingSubset k → PendingRegisteredPost k := by
  intro k hinv
  constructor
  · intro e m n p s o r hr
    obtain ⟨hth, hwt⟩ := create_thread_kernel e k m n p s o r hr
    intro t ht
    rw [hwt] at ht
    rw [hth]
    cases hb : (t == k.next_uid) with
    | true => simp only [List.lookup, hb, Option.isSome_some]
    | false =>
      simp only [List.lookup, hb] at ht ⊢
      exact hinv t ht
  · intro thid a b ok
    cases hw : List.lookup thid k.waiting_threads with
    | none =>
      constructor
      · simp [start_thread, hw]
      · intro res hres
        simp only [start_thread, hw, Option.some.injEq] at hres
        rw [← hres]
        exact hinv
    | some w =>
      have hsome : (List.lookup thid k.threads).isSome = true :=
        hinv thid (by rw [hw]; rfl)
      obtain ⟨t0, ht0⟩ := Option.isSome_iff_exists.mp hsome
      cases ok with
      | false =>
        constructor
        · simp [start_thread, hw, ht0]
        · intro res hres
          simp only [start_thread, hw, ht0, Bool.false_eq_true, if_false,
            Option.some.injEq] at hres
          rw [← hres]
          exact hinv
      | true =>
        constructor
        · simp [start_thread, hw, ht0]
        · intro res hres
          simp only [start_thread, hw, ht0, if_true, Option.some.injEq] at hres
          rw [← hres]
          intro t2 h2
          have h3 : (List.lookup t2 k.waiting_threads).isSome = true :=
            lookup_isSome_of_sublist (List.eraseP_sublist k.waiting_threads) t2 h2
          exact hinv t2 h3

/-- C10 witness: the empty kernel state satisfies the invariant, and both
operations preserve it there. -/
theorem pending_ids_registered_witness :
    WaitingSubset k0 ∧ PendingRegisteredPost k0 := by
  have h : WaitingSubset k0 := by
    intro t ht
    simp [k0, List.lookup] at ht
  exact ⟨h, pending_ids_registered k0 h⟩
